import Mathlib

/-!
Verification of the asynchronous thumbnail pipeline of MediaOrganizer
(`src/ui/gallery.py`): the `ThumbnailLoader` scheduler, the
`ThumbnailRunnable.run` generation/cache job, and the `GalleryModel`
decoration cache, shallowly embedded as executable Lean definitions.
-/

namespace Gallery

/-- A pending thumbnail request, the tuple
`(index_row, file_path, file_type, icon_provider)` pushed by
`ThumbnailLoader.load_thumbnail` (the icon provider is opaque and unused by
the scheduler, so it is omitted). -/
structure Task where
  row : Nat
  file_path : String
  file_type : String
deriving Repr, DecidableEq

/-- State of `ThumbnailLoader`: the in-flight counter, the pending stack
(a Python list: `append` pushes at the end, `pop()` pops from the end),
the fixed pool capacity `max_workers`, plus observation traces of the
`start_task` calls (`dispatched`) and the `task_canceled` emissions
(`canceled`) in the order they happen.  `active_tasks` is an `Int`
because the Python counter is an unbounded integer that the handler
decrements unconditionally. -/
structure LoaderState where
  active_tasks : Int
  pending_tasks : List Task
  max_workers : Int
  dispatched : List Task
  canceled : List Nat
  completed : List Nat
deriving Repr, DecidableEq

/-- `ThumbnailLoader.__init__`: capacity fixed at 2, counter at 0, empty
pending stack. -/
def initLoader : LoaderState :=
  { active_tasks := 0, pending_tasks := [], max_workers := 2
    dispatched := [], canceled := [], completed := [] }

/-- `ThumbnailLoader.start_task`: increment `active_tasks` and hand the
runnable to the thread pool (recorded on the `dispatched` trace). -/
def start_task (s : LoaderState) (t : Task) : LoaderState :=
  { s with active_tasks := s.active_tasks + 1, dispatched := s.dispatched ++ [t] }

/-- One-step body plus recursion of the `while` loop of
`ThumbnailLoader.schedule`, with explicit fuel.  While there is capacity
and the pending stack is non-empty: pop the LAST (most recently pushed)
task; if a visibility checker is installed and rejects the row, emit
`task_canceled` and continue; otherwise `start_task`.  Each iteration
removes one pending task and pushes none, so `pending_tasks.length` fuel
is always enough. -/
def scheduleAux (vis : Option (Nat → Bool)) : Nat → LoaderState → LoaderState
  | 0, s => s
  | fuel + 1, s =>
    if h : s.active_tasks < s.max_workers ∧ s.pending_tasks ≠ [] then
      let task := s.pending_tasks.getLast h.2
      let s1 := { s with pending_tasks := s.pending_tasks.dropLast }
      match vis with
      | some checker =>
        if checker task.row then
          scheduleAux vis fuel (start_task s1 task)
        else
          scheduleAux vis fuel { s1 with canceled := s1.canceled ++ [task.row] }
      | none => scheduleAux vis fuel (start_task s1 task)
    else s

/-- `ThumbnailLoader.schedule`. -/
def schedule (vis : Option (Nat → Bool)) (s : LoaderState) : LoaderState :=
  scheduleAux vis s.pending_tasks.length s

/-- `ThumbnailLoader.load_thumbnail`: append the request to the pending
stack, then `schedule`. -/
def load_thumbnail (vis : Option (Nat → Bool)) (s : LoaderState) (t : Task) :
    LoaderState :=
  schedule vis { s with pending_tasks := s.pending_tasks ++ [t] }

/-- `ThumbnailLoader._on_thumbnail_finished`: decrement `active_tasks`,
then `schedule` again.  The completed row (first payload of the
`thumbnail_loaded` signal) is recorded on the `completed` trace. -/
def on_thumbnail_finished (vis : Option (Nat → Bool)) (s : LoaderState)
    (row : Nat) : LoaderState :=
  schedule vis
    { s with active_tasks := s.active_tasks - 1, completed := s.completed ++ [row] }

/-- `ThumbnailLoader.cancel_pending_tasks`: clear the pending stack,
emitting nothing. -/
def cancel_pending_tasks (s : LoaderState) : LoaderState :=
  { s with pending_tasks := [] }

/-- External events driving the loader: a `load_thumbnail` call from the
display layer, or the arrival of a `thumbnail_loaded` signal for a
finished job. -/
inductive LoaderEvent
  | load (t : Task)
  | finish (row : Nat)
deriving Repr, DecidableEq

/-- Dispatch one event to the corresponding `ThumbnailLoader` handler. -/
def loaderStep (vis : Option (Nat → Bool)) (s : LoaderState) :
    LoaderEvent → LoaderState
  | .load t => load_thumbnail vis s t
  | .finish row => on_thumbnail_finished vis s row

/-- Run a whole event sequence from a state. -/
def loaderRun (vis : Option (Nat → Bool)) :
    LoaderState → List LoaderEvent → LoaderState
  | s, [] => s
  | s, e :: evs => loaderRun vis (loaderStep vis s e) evs

/-- `scheduleAux` never changes the pool capacity field. -/
theorem scheduleAux_max_workers (vis : Option (Nat → Bool)) :
    ∀ (fuel : Nat) (s : LoaderState),
      (scheduleAux vis fuel s).max_workers = s.max_workers := by
  intro fuel
  induction fuel with
  | zero => intro s; rfl
  | succ fuel ih =>
    intro s
    cases vis with
    | none =>
      simp only [scheduleAux]
      split
      · rw [ih]; try rfl
      · rfl
    | some checker =>
      simp only [scheduleAux]
      split
      · split
        · rw [ih]; try rfl
        · rw [ih]; try rfl
      · rfl

/-- The admission loop dispatches only while `active_tasks < max_workers`,
so it preserves `active_tasks ≤ max_workers`. -/
theorem scheduleAux_active_le (vis : Option (Nat → Bool)) :
    ∀ (fuel : Nat) (s : LoaderState), s.active_tasks ≤ s.max_workers →
      (scheduleAux vis fuel s).active_tasks ≤ s.max_workers := by
  intro fuel
  induction fuel with
  | zero => intro s h; exact h
  | succ fuel ih =>
    intro s h
    cases vis with
    | none =>
      simp only [scheduleAux]
      split
      · next hg =>
        exact ih (start_task { s with pending_tasks := s.pending_tasks.dropLast }
            (s.pending_tasks.getLast hg.2))
          (show s.active_tasks + 1 ≤ s.max_workers by omega)
      · exact h
    | some checker =>
      simp only [scheduleAux]
      split
      · next hg =>
        split
        · exact ih (start_task { s with pending_tasks := s.pending_tasks.dropLast }
              (s.pending_tasks.getLast hg.2))
            (show s.active_tasks + 1 ≤ s.max_workers by omega)
        · exact ih
            { s with
              pending_tasks := s.pending_tasks.dropLast
              canceled := s.canceled ++ [(s.pending_tasks.getLast hg.2).row] }
            h
      · exact h

/-- Any single loader event preserves `active_tasks ≤ max_workers`. -/
theorem loaderStep_active_le (vis : Option (Nat → Bool)) (s : LoaderState)
    (e : LoaderEvent) (h : s.active_tasks ≤ s.max_workers) :
    (loaderStep vis s e).active_tasks ≤ (loaderStep vis s e).max_workers := by
  cases e with
  | load t =>
    have h1 := scheduleAux_active_le vis
      ({ s with pending_tasks := s.pending_tasks ++ [t] } : LoaderState).pending_tasks.length
      { s with pending_tasks := s.pending_tasks ++ [t] } h
    have h2 := scheduleAux_max_workers vis
      ({ s with pending_tasks := s.pending_tasks ++ [t] } : LoaderState).pending_tasks.length
      { s with pending_tasks := s.pending_tasks ++ [t] }
    simp only [loaderStep, load_thumbnail, schedule] at *
    rw [h2]
    exact h1
  | finish row =>
    have h1 := scheduleAux_active_le vis
      ({ s with active_tasks := s.active_tasks - 1,
                completed := s.completed ++ [row] } : LoaderState).pending_tasks.length
      { s with active_tasks := s.active_tasks - 1, completed := s.completed ++ [row] }
      (by simp only; omega)
    have h2 := scheduleAux_max_workers vis
      ({ s with active_tasks := s.active_tasks - 1,
                completed := s.completed ++ [row] } : LoaderState).pending_tasks.length
      { s with active_tasks := s.active_tasks - 1, completed := s.completed ++ [row] }
    simp only [loaderStep, on_thumbnail_finished, schedule] at *
    rw [h2]
    exact h1

/-- No loader event changes the pool capacity field. -/
theorem loaderStep_max_workers (vis : Option (Nat → Bool)) (s : LoaderState)
    (e : LoaderEvent) : (loaderStep vis s e).max_workers = s.max_workers := by
  cases e <;>
    simp only [loaderStep, load_thumbnail, on_thumbnail_finished, schedule,
      scheduleAux_max_workers]

/-- **C1.** At every instant the number of in-flight generation jobs is at
most the fixed pool capacity 2: for every sequence of `load_thumbnail` /
completion events applied to a freshly constructed `ThumbnailLoader`
(any visibility checker installed or not), `active_tasks ≤ 2` holds,
because `schedule` dispatches only while `active_tasks < max_workers`,
`start_task` increments the counter, and each completion decrements it
exactly once. -/
theorem loader_in_flight_le_capacity (vis : Option (Nat → Bool))
    (evs : List LoaderEvent) :
    (loaderRun vis initLoader evs).active_tasks ≤ 2 := by
  suffices hgen : ∀ (evs : List LoaderEvent) (s : LoaderState),
      s.active_tasks ≤ s.max_workers →
      (loaderRun vis s evs).active_tasks ≤ (loaderRun vis s evs).max_workers ∧
      (loaderRun vis s evs).max_workers = s.max_workers by
    obtain ⟨h1, h2⟩ := hgen evs initLoader (by simp [initLoader])
    rw [h2] at h1
    simpa [initLoader] using h1
  intro evs
  induction evs with
  | nil => intro s h; exact ⟨h, rfl⟩
  | cons e evs ih =>
    intro s h
    obtain ⟨h1, h2⟩ := ih (loaderStep vis s e) (loaderStep_active_le vis s e h)
    refine ⟨h1, ?_⟩
    rw [loaderRun, h2, loaderStep_max_workers]

/-- A `QImage` value as the job manipulates it: either the null image
(`QImage()` freshly constructed, or a failed read) or a raster of a given
width, height and opaque pixel content. -/
inductive QImageM
  | null
  | mk (width height : Nat) (content : Nat)
deriving Repr, DecidableEq

/-- `QImage.isNull`. -/
def QImageM.isNull : QImageM → Bool
  | .null => true
  | .mk _ _ _ => false

/-- `os.path.join(cache_dir, f"{file_hash}.jpg")` with
`file_hash = hashlib.md5(file_path.encode()).hexdigest()`: the cache file
name is the digest of the source path under the cache directory.  The
digest function is a parameter (a fixed, deterministic function of the
path string, exactly as md5 is). -/
def cache_path (cacheDir : String) (hash : String → String) (p : String) :
    String :=
  cacheDir ++ "/" ++ hash p ++ ".jpg"

/-- The cache-lookup step of `ThumbnailRunnable.run` (lines 45-50): if the
cache file for the path exists, read it; a non-null decode is a hit and is
used directly, an absent file or a null decode is a miss.  `fs` maps an
on-disk file name to the image its bytes decode to (`QImageM.null` for an
unreadable file). -/
def cacheLookup (fs : String → Option QImageM) (cacheDir : String)
    (hash : String → String) (p : String) : Option QImageM :=
  match fs (cache_path cacheDir hash p) with
  | some img => if img.isNull then none else some img
  | none => none

/-- The cache-write step of `ThumbnailRunnable.run` (line 119):
`image.save(cache_path, "JPG", quality=80)` overwrites the cache file for
the path with the lossy JPEG encoding of `img`.  `jpegRT` is the codec
round-trip (what a later decode of that encoding yields), a parameter of
the file-system model. -/
def cacheStore (fs : String → Option QImageM) (cacheDir : String)
    (hash : String → String) (jpegRT : QImageM → QImageM) (p : String)
    (img : QImageM) : String → Option QImageM :=
  fun q => if q = cache_path cacheDir hash p then some (jpegRT img) else fs q

/-- `QSize::scaled(sw, sh, Qt::KeepAspectRatio)` applied to an original
size `(wd, ht)` (Qt source: returns the bound itself when a source side
is zero; otherwise fits inside the bound with truncating integer
division). -/
def qsizeScaled (wd ht sw sh : Nat) : Nat × Nat :=
  if wd = 0 ∨ ht = 0 then (sw, sh)
  else
    let rw := sh * wd / ht
    if rw ≤ sw then (rw, sh) else (sw, sw * ht / wd)

/-- Environment of one `ThumbnailRunnable.run` execution: everything the
job observes from the outside world, fixed for the duration of the run. -/
structure RunEnv where
  /-- the cache directory path (`os.path.join(os.getcwd(), ".thumbnails")`) -/
  cacheDir : String
  /-- the md5 hex digest function over path strings -/
  hash : String → String
  /-- decoded content of each on-disk file at the start of the run -/
  fs0 : String → Option QImageM
  /-- `os.path.exists(cache_dir)` at the start of the run -/
  dirExists0 : Bool
  /-- whether the first `os.makedirs(cache_dir)` attempt succeeds -/
  mkdir1Ok : Bool
  /-- whether the second `os.makedirs(cache_dir)` attempt (before the
  save) succeeds -/
  mkdir2Ok : Bool
  /-- the cache directory was externally deleted between the setup and the
  save (`user might have deleted it`, line 113) -/
  dirDeletedBeforeSave : Bool
  /-- `QImage.save` succeeds when the directory exists -/
  saveOk : Bool
  /-- lossy JPEG round-trip: what a decode of the quality-80 encoding of
  an image yields -/
  jpegRT : QImageM → QImageM
  /-- `QImageReader(file_path).size()` when valid (image branch) -/
  imgSize : Option (Nat × Nat)
  /-- pixel content produced when the scaled decode `reader.read()`
  succeeds; `none` models a decode failure (null read) -/
  imgDecode : Option Nat
  /-- whether the `cv2` import succeeded -/
  cv2Present : Bool
  /-- whether `VideoCapture` ends up opened (FFMPEG attempt or fallback) -/
  capOpens : Bool
  /-- the i-th `cap.read()`: `some (w, h, content)` for a valid frame
  (`ret` true, non-null, positive size), `none` for an invalid one -/
  frames : Nat → Option (Nat × Nat × Nat)
  /-- an exception is raised inside the `try` of the video branch before a
  frame is converted (caught by the `except`, leaving the image null) -/
  videoExc : Bool

/-- The image branch of `ThumbnailRunnable.run` (lines 53-62): read the
intrinsic size; if valid, scale it to fit 100x100 keeping aspect ratio,
set it as the reader's scaled size and decode, which on success yields an
image of exactly the target size; otherwise the image stays null. -/
def generateImage (env : RunEnv) : QImageM :=
  match env.imgSize with
  | some (w, h) =>
    let target := qsizeScaled w h 100 100
    match env.imgDecode with
    | some c => .mk target.1 target.2 c
    | none => .null
  | none => .null

/-- The video branch of `ThumbnailRunnable.run` (lines 64-109): requires
cv2 and an opened capture; reads up to 5 frames and converts the first
valid one (scaled to fit 100x100 keeping aspect ratio); any exception in
the `try` block is caught, leaving the image null. -/
def generateVideo (env : RunEnv) : QImageM :=
  if !env.cv2Present then .null
  else if env.videoExc then .null
  else if !env.capOpens then .null
  else
    match (List.range 5).findSome? env.frames with
    | some (w, h, c) =>
      let target := qsizeScaled w h 100 100
      .mk target.1 target.2 c
    | none => .null

/-- Dispatch of `ThumbnailRunnable.run` on `file_type` (lines 53 and 64):
anything other than `image` / `video` leaves the image null. -/
def generatedOf (env : RunEnv) (file_type : String) : QImageM :=
  if file_type = "image" then generateImage env
  else if file_type = "video" then generateVideo env
  else .null

/-- Result of one `ThumbnailRunnable.run` execution: the
`result_signal.emit(index_row, image)` calls it performed, in order, and
the file system it leaves behind. -/
structure RunResult where
  emits : List (Nat × QImageM)
  fs : String → Option QImageM

/-- `ThumbnailRunnable.run`: cache setup (create the cache directory if
absent, ignoring failure), cache lookup (emit a non-null cached image
directly), generation by media kind, cache write (re-creating the
directory if it disappeared, ignoring failure; the save writes only if
the directory then exists), and the final emit. -/
def runThumb (env : RunEnv) (index_row : Nat) (file_path file_type : String) :
    RunResult :=
  let dirE := if env.dirExists0 then true else env.mkdir1Ok
  match cacheLookup env.fs0 env.cacheDir env.hash file_path with
  | some img => { emits := [(index_row, img)], fs := env.fs0 }
  | none =>
    let image := generatedOf env file_type
    if image.isNull then { emits := [(index_row, image)], fs := env.fs0 }
    else
      let dirAtSave := if env.dirDeletedBeforeSave then false else dirE
      let dirFinal := if dirAtSave then true else env.mkdir2Ok
      let fsAfter :=
        if dirFinal && env.saveOk then
          cacheStore env.fs0 env.cacheDir env.hash env.jpegRT file_path image
        else env.fs0
      { emits := [(index_row, image)], fs := fsAfter }

/-- One record of the media list as `GalleryModel` reads it: the DB tuple
`(id, file_path, filename, extension, file_type, date, size)` is indexed
only at positions 1, 2 and 4. -/
structure MediaFile where
  file_path : String
  filename : String
  file_type : String
deriving Repr, DecidableEq

/-- A decoration value held in `GalleryModel.icon_cache`: the loading
placeholder (`SP_BrowserReload`), an icon built from a loaded image
(`QIcon(QPixmap.fromImage(image))`), or the generic per-file-type icon
from `QFileIconProvider`. -/
inductive IconV
  | loading
  | fromImage (content : Nat)
  | fileIcon (path : String)
deriving Repr, DecidableEq

/-- `GalleryModel` state: the media list, the row → icon decoration cache
(a Python dict, modelled as a partial function), the embedded
`ThumbnailLoader`, and the trace of rows for which `data` called
`load_thumbnail`, in order. -/
structure GalleryState where
  media_files : List MediaFile
  icon_cache : Nat → Option IconV
  loader : LoaderState
  requests : List Nat

/-- `GalleryModel.__init__` with an initial media list. -/
def initGallery (files : List MediaFile) : GalleryState :=
  { media_files := files, icon_cache := fun _ => none, loader := initLoader
    requests := [] }

/-- `GalleryModel.data` for `DecorationRole`.  Qt hands `data` only valid
indexes (`index.isValid()` implies `row < rowCount()`; invalid indexes
return early, modelled by the out-of-range no-op).  On a cache hit the
cached icon is returned unchanged; on a miss the loading marker is stored
for the row and an async load is requested. -/
def galleryData (vis : Option (Nat → Bool)) (s : GalleryState) (row : Nat) :
    GalleryState :=
  if h : row < s.media_files.length then
    match s.icon_cache row with
    | some _ => s
    | none =>
      let fd := s.media_files.get ⟨row, h⟩
      { s with
        icon_cache := fun r => if r = row then some .loading else s.icon_cache r
        loader := load_thumbnail vis s.loader ⟨row, fd.file_path, fd.file_type⟩
        requests := s.requests ++ [row] }
  else s

/-- `GalleryModel.on_thumbnail_loaded`: a non-null image becomes an icon;
a null image falls back to the generic file icon when the row is still in
range; the icon is stored only when the row is within the current row
count (`row < self.rowCount()`). -/
def on_thumbnail_loaded (s : GalleryState) (row : Nat) (image : Option Nat) :
    GalleryState :=
  let icon : Option IconV :=
    match image with
    | some c => some (.fromImage c)
    | none =>
      if h : row < s.media_files.length then
        some (.fileIcon (s.media_files.get ⟨row, h⟩).file_path)
      else none
  match icon with
  | some ic =>
    if row < s.media_files.length then
      { s with icon_cache := fun r => if r = row then some ic else s.icon_cache r }
    else s
  | none => s

/-- `GalleryModel.on_task_canceled`: delete the row's marker so the row
can be requested again. -/
def on_task_canceled (s : GalleryState) (row : Nat) : GalleryState :=
  { s with icon_cache := fun r => if r = row then none else s.icon_cache r }

/-- `GalleryModel.update_data`: cancel all pending loads, replace the
media list and clear the whole decoration cache. -/
def update_data (s : GalleryState) (files : List MediaFile) : GalleryState :=
  { s with
    loader := cancel_pending_tasks s.loader
    media_files := files
    icon_cache := fun _ => none }

/-- External events on the gallery: a render of a row's decoration role, a
`thumbnail_loaded` signal from a finished job (handled first by the
loader's `_on_thumbnail_finished`, then by the model's
`on_thumbnail_loaded`, in connection order), a `task_canceled` signal
(connected only to the model), and a data-set reset. -/
inductive GalleryEvent
  | render (row : Nat)
  | loaded (row : Nat) (image : Option Nat)
  | canceled (row : Nat)
  | reset (files : List MediaFile)
deriving DecidableEq

/-- Dispatch one gallery event to the handlers it triggers. -/
def galleryStep (vis : Option (Nat → Bool)) (s : GalleryState) :
    GalleryEvent → GalleryState
  | .render row => galleryData vis s row
  | .loaded row image =>
    on_thumbnail_loaded
      { s with loader := on_thumbnail_finished vis s.loader row } row image
  | .canceled row => on_task_canceled s row
  | .reset files => update_data s files

/-- Run a whole gallery event sequence from a state. -/
def galleryRun (vis : Option (Nat → Bool)) :
    GalleryState → List GalleryEvent → GalleryState
  | s, [] => s
  | s, e :: evs => galleryRun vis (galleryStep vis s e) evs

/-- Characterization of the admission loop under an installed visibility
checker: some suffix of the pending stack is popped, latest first
(`popped` lists the popped requests in pop order); each popped request
whose row fails the checker contributes exactly one `task_canceled`
emission and no dispatch, each one whose row passes is dispatched exactly
once, and `active_tasks` grows by the number of dispatched requests. -/
theorem scheduleAux_pop_spec (checker : Nat → Bool) :
    ∀ (fuel : Nat) (s : LoaderState), ∃ popped : List Task,
      s.pending_tasks
        = (scheduleAux (some checker) fuel s).pending_tasks ++ popped.reverse ∧
      (scheduleAux (some checker) fuel s).canceled
        = s.canceled ++ (popped.filter (fun t => !(checker t.row))).map Task.row ∧
      (scheduleAux (some checker) fuel s).dispatched
        = s.dispatched ++ popped.filter (fun t => checker t.row) ∧
      (scheduleAux (some checker) fuel s).active_tasks
        = s.active_tasks + (popped.filter (fun t => checker t.row)).length := by
  intro fuel
  induction fuel with
  | zero => intro s; exact ⟨[], by simp [scheduleAux]⟩
  | succ fuel ih =>
    intro s
    simp only [scheduleAux]
    split
    · next hg =>
      split
      · next hvis =>
        obtain ⟨popped, h1, h2, h3, h4⟩ :=
          ih (start_task { s with pending_tasks := s.pending_tasks.dropLast }
            (s.pending_tasks.getLast hg.2))
        refine ⟨s.pending_tasks.getLast hg.2 :: popped, ?_, ?_, ?_, ?_⟩
        · rw [List.reverse_cons, ← List.append_assoc, ← h1]
          exact (List.dropLast_append_getLast hg.2).symm
        · rw [h2]; simp [start_task, hvis]
        · rw [h3]; simp [start_task, hvis]
        · rw [h4]; simp [start_task, hvis]; omega
      · next hvis =>
        obtain ⟨popped, h1, h2, h3, h4⟩ :=
          ih { s with
                pending_tasks := s.pending_tasks.dropLast
                canceled := s.canceled ++ [(s.pending_tasks.getLast hg.2).row] }
        refine ⟨s.pending_tasks.getLast hg.2 :: popped, ?_, ?_, ?_, ?_⟩
        · rw [List.reverse_cons, ← List.append_assoc, ← h1]
          exact (List.dropLast_append_getLast hg.2).symm
        · rw [h2]
          simp only [Bool.not_eq_true] at hvis
          simp [hvis]
        · rw [h3]
          simp only [Bool.not_eq_true] at hvis
          simp [hvis]
        · rw [h4]
          simp only [Bool.not_eq_true] at hvis
          simp [hvis]
    · exact ⟨[], by simp⟩

/-- **C3.** Every request popped at admission whose visibility predicate
returns false receives exactly one `task_canceled` notification for its
row, is never dispatched (no generation call, no in-flight increment for
it), and is removed from the pending stack; visible popped requests are
dispatched exactly once each, and `active_tasks` rises only by the number
of dispatched (visible) requests. -/
theorem schedule_invisible_requests_dropped (checker : Nat → Bool)
    (s : LoaderState) :
    ∃ popped : List Task,
      s.pending_tasks
        = (schedule (some checker) s).pending_tasks ++ popped.reverse ∧
      (schedule (some checker) s).canceled
        = s.canceled ++ (popped.filter (fun t => !(checker t.row))).map Task.row ∧
      (schedule (some checker) s).dispatched
        = s.dispatched ++ popped.filter (fun t => checker t.row) ∧
      (schedule (some checker) s).active_tasks
        = s.active_tasks + (popped.filter (fun t => checker t.row)).length :=
  scheduleAux_pop_spec checker s.pending_tasks.length s

/-- The C2 scenario event sequence: rows 1..10 requested sequentially,
then each of the dispatched jobs finishes in dispatch order. -/
def c2Events : List LoaderEvent :=
  (List.range 10).map (fun i => .load ⟨i + 1, "", "image"⟩) ++
    [.finish 1, .finish 2, .finish 10, .finish 9, .finish 8,
     .finish 7, .finish 6, .finish 5, .finish 4, .finish 3]

/-- **C2.** With pool capacity 2, every row visible, and rows 1..10
requested sequentially, the two earliest-dispatched requests are rows 1
and 2 (and they complete first, in arrival order, when jobs finish in
dispatch order), and all later admissions pop the most recently pushed
pending request, so the remaining rows dispatch in descending order
10, 9, ..., 3. -/
theorem lifo_dispatch_scenario :
    ((loaderRun (some (fun _ => true)) initLoader c2Events).dispatched.map Task.row
        = [1, 2, 10, 9, 8, 7, 6, 5, 4, 3]) ∧
    (loaderRun (some (fun _ => true)) initLoader c2Events).completed
        = [1, 2, 10, 9, 8, 7, 6, 5, 4, 3] := by
  constructor <;> rfl

/-- **C5.** Every execution of `ThumbnailRunnable.run` — any path, media
kind and cache/file-system state — invokes `result_signal.emit` with
`(index_row, image-or-empty)` exactly once: once on the cache-hit early
return and once on the fall-through path, never zero or two times.  (The
`thumbnail_loaded` handler `_on_thumbnail_finished` then decrements
`active_tasks` and calls `schedule` again; that is its definition,
`on_thumbnail_finished` above.) -/
theorem run_emits_exactly_once (env : RunEnv) (index_row : Nat)
    (file_path file_type : String) :
    (∃ img : QImageM,
      (runThumb env index_row file_path file_type).emits
        = [(index_row, img)]) ∧
    (∀ (vis : Option (Nat → Bool)) (s : LoaderState) (row : Nat),
      on_thumbnail_finished vis s row
        = schedule vis
            { s with active_tasks := s.active_tasks - 1,
                     completed := s.completed ++ [row] }) := by
  refine ⟨?_, fun _ _ _ => rfl⟩
  cases hc : cacheLookup env.fs0 env.cacheDir env.hash file_path with
  | some img => exact ⟨img, by simp [runThumb, hc]⟩
  | none =>
    refine ⟨generatedOf env file_type, ?_⟩
    by_cases hn : (generatedOf env file_type).isNull = true <;>
      simp [runThumb, hc, hn]

/-- **C8.** `lookup(p)` after `store(p, img)` hits exactly the entry the
write produced, because both derive the cache file name from the same
path by the same digest: the read returns the decode of the stored lossy
encoding, i.e. an image pixel-equivalent to `img` up to the codec's
round-trip (provided that round-trip is a readable, non-null image). -/
theorem cache_store_lookup_roundtrip (fs : String → Option QImageM)
    (cacheDir : String) (hash : String → String) (jpegRT : QImageM → QImageM)
    (p : String) (img : QImageM) (h : (jpegRT img).isNull = false) :
    cacheLookup (cacheStore fs cacheDir hash jpegRT p img) cacheDir hash p
      = some (jpegRT img) := by
  simp [cacheLookup, cacheStore, h]

/-- Witness for C8: a concrete store followed by a lookup of the same path
returns the stored (codec round-tripped) image. -/
theorem cache_store_lookup_roundtrip_witness :
    ((fun i => i) (QImageM.mk 100 75 3)).isNull = false ∧
    cacheLookup
      (cacheStore (fun _ => none) ".thumbnails" (fun s => s ++ "#md5")
        (fun i => i) "/pics/a.png" (QImageM.mk 100 75 3))
      ".thumbnails" (fun s => s ++ "#md5") "/pics/a.png"
      = some ((fun i => i) (QImageM.mk 100 75 3)) :=
  ⟨rfl, cache_store_lookup_roundtrip (fun _ => none) ".thumbnails"
    (fun s => s ++ "#md5") (fun i => i) "/pics/a.png" (QImageM.mk 100 75 3) rfl⟩

/-- **C9.** When the cache directory does not exist and neither creation
attempt succeeds, the failure is non-fatal and local to caching: the run
still performs its single emit delivering the generated result, and the
file system is unchanged (nothing is cached for that call). -/
theorem cache_dir_failure_nonfatal (env : RunEnv) (index_row : Nat)
    (file_path file_type : String)
    (hmiss : cacheLookup env.fs0 env.cacheDir env.hash file_path = none)
    (hdir : env.dirExists0 = false) (hm1 : env.mkdir1Ok = false)
    (hm2 : env.mkdir2Ok = false) :
    (runThumb env index_row file_path file_type).emits
        = [(index_row, generatedOf env file_type)] ∧
    (runThumb env index_row file_path file_type).fs = env.fs0 := by
  unfold runThumb
  simp only [hmiss, hdir, hm1, hm2]
  split <;> simp

/-- **C6.** A video source whose capture opens but whose first 5 frame
reads are all invalid (read fails, null frame, or zero size) yields the
empty result: the run's single emit delivers `(row, null image)`, nothing
is raised to the caller (the embedding is a total function; the source
catches every exception of the branch), and nothing is written to the
cache, because the save step is guarded by `not image.isNull()`. -/
theorem video_all_frames_invalid (env : RunEnv) (index_row : Nat)
    (file_path : String)
    (hmiss : cacheLookup env.fs0 env.cacheDir env.hash file_path = none)
    (hcv2 : env.cv2Present = true) (hexc : env.videoExc = false)
    (hcap : env.capOpens = true)
    (hframes : ∀ i, i < 5 → env.frames i = none) :
    (runThumb env index_row file_path "video").emits
        = [(index_row, QImageM.null)] ∧
    (runThumb env index_row file_path "video").fs = env.fs0 := by
  have h5 : (List.range 5).findSome? env.frames = none := by
    have e0 := hframes 0 (by omega)
    have e1 := hframes 1 (by omega)
    have e2 := hframes 2 (by omega)
    have e3 := hframes 3 (by omega)
    have e4 := hframes 4 (by omega)
    show ([0, 1, 2, 3, 4] : List Nat).findSome? env.frames = none
    simp [List.findSome?, e0, e1, e2, e3, e4]
  have hgen : generatedOf env "video" = QImageM.null := by
    simp [generatedOf, generateVideo, hcv2, hexc, hcap, h5]
  constructor <;> simp [runThumb, hmiss, hgen, QImageM.isNull]

/-- Fitting a positive original size `(w, h)` into the 100x100 bound with
`Qt::KeepAspectRatio` yields a size whose longest side is exactly 100 and
whose sides reproduce the original aspect ratio up to the truncation of
one integer division (within one pixel). -/
theorem qsizeScaled_spec (w h : Nat) (hw : 0 < w) (hh : 0 < h) :
    max (qsizeScaled w h 100 100).1 (qsizeScaled w h 100 100).2 = 100 ∧
    (qsizeScaled w h 100 100).1 * h ≤ ((qsizeScaled w h 100 100).2 + 1) * w ∧
    (qsizeScaled w h 100 100).2 * w ≤ ((qsizeScaled w h 100 100).1 + 1) * h := by
  unfold qsizeScaled
  rw [if_neg (show ¬(w = 0 ∨ h = 0) by omega)]
  by_cases hrw : 100 * w / h ≤ 100
  · simp only [if_pos hrw]
    refine ⟨max_eq_right hrw, ?_, ?_⟩
    · calc (100 * w / h) * h ≤ 100 * w := Nat.div_mul_le_self _ _
        _ ≤ (100 + 1) * w := by omega
    · have hmod := Nat.div_add_mod (100 * w) h
      have hlt := Nat.mod_lt (100 * w) hh
      calc 100 * w = h * (100 * w / h) + 100 * w % h := hmod.symm
        _ ≤ h * (100 * w / h) + h := by omega
        _ = (100 * w / h + 1) * h := by ring
  · simp only [if_neg hrw]
    have h101 : 101 * h ≤ 100 * w :=
      (Nat.le_div_iff_mul_le hh).mp (by omega)
    have hth : 100 * h / w ≤ 100 := by
      by_contra hcon
      have : 101 * w ≤ 100 * h := (Nat.le_div_iff_mul_le hw).mp (by omega)
      omega
    refine ⟨max_eq_left hth, ?_, ?_⟩
    · have hmod := Nat.div_add_mod (100 * h) w
      have hlt := Nat.mod_lt (100 * h) hw
      calc 100 * h = w * (100 * h / w) + 100 * h % w := hmod.symm
        _ ≤ w * (100 * h / w) + w := by omega
        _ = (100 * h / w + 1) * w := by ring
    · calc (100 * h / w) * w ≤ 100 * h := Nat.div_mul_le_self _ _
        _ ≤ (100 + 1) * h := by omega

/-- **C7.** For every image source with a positive intrinsic size (the
4000x3000 scenario in particular) generated on a cache miss under the
100x100 bound, the emitted thumbnail has exactly the target size obtained
by scaling the intrinsic size to fit 100x100 with `KeepAspectRatio`: its
longest side is exactly 100 px and its aspect ratio matches the input
within one pixel of rounding. -/
theorem image_thumbnail_dimensions (env : RunEnv) (index_row : Nat)
    (file_path : String) (w h c : Nat)
    (hmiss : cacheLookup env.fs0 env.cacheDir env.hash file_path = none)
    (hsize : env.imgSize = some (w, h)) (hw : 0 < w) (hh : 0 < h)
    (hdec : env.imgDecode = some c) :
    ∃ tw th : Nat,
      (runThumb env index_row file_path "image").emits
          = [(index_row, QImageM.mk tw th c)] ∧
      (tw, th) = qsizeScaled w h 100 100 ∧
      max tw th = 100 ∧
      tw * h ≤ (th + 1) * w ∧ th * w ≤ (tw + 1) * h := by
  obtain ⟨hmax, ha1, ha2⟩ := qsizeScaled_spec w h hw hh
  refine ⟨(qsizeScaled w h 100 100).1, (qsizeScaled w h 100 100).2,
    ?_, rfl, hmax, ha1, ha2⟩
  have hgen : generatedOf env "image"
      = QImageM.mk (qsizeScaled w h 100 100).1 (qsizeScaled w h 100 100).2 c := by
    simp [generatedOf, generateImage, hsize, hdec]
  simp [runThumb, hmiss, hgen, QImageM.isNull]

/-- A concrete run environment shared by the scenario witnesses: empty
file system, no cache directory yet but directory creation succeeding, a
4000x3000 image source decoding fine, and a video capture whose five
frame reads all fail. -/
def scenarioEnv : RunEnv :=
  { cacheDir := "/work/.thumbnails"
    hash := fun s => s ++ "#md5"
    fs0 := fun _ => none
    dirExists0 := false
    mkdir1Ok := true
    mkdir2Ok := true
    dirDeletedBeforeSave := false
    saveOk := true
    jpegRT := fun i => i
    imgSize := some (4000, 3000)
    imgDecode := some 7
    cv2Present := true
    capOpens := true
    frames := fun _ => none
    videoExc := false }

/-- Witness for C6: the scenario environment's video job (five invalid
frame reads) emits the null image once and leaves the file system
untouched. -/
theorem video_all_frames_invalid_witness :
    cacheLookup scenarioEnv.fs0 scenarioEnv.cacheDir scenarioEnv.hash
        "/media/v.mp4" = none ∧
    scenarioEnv.cv2Present = true ∧ scenarioEnv.videoExc = false ∧
    scenarioEnv.capOpens = true ∧ (∀ i, i < 5 → scenarioEnv.frames i = none) ∧
    ((runThumb scenarioEnv 4 "/media/v.mp4" "video").emits
        = [(4, QImageM.null)] ∧
     (runThumb scenarioEnv 4 "/media/v.mp4" "video").fs = scenarioEnv.fs0) :=
  ⟨rfl, rfl, rfl, rfl, fun _ _ => rfl,
    video_all_frames_invalid scenarioEnv 4 "/media/v.mp4" rfl rfl rfl rfl
      (fun _ _ => rfl)⟩

/-- Witness for C7: at intrinsic size 4000x3000 the emitted thumbnail has
a concrete target size with longest side 100 and aspect within one pixel
(the target evaluates to 100x75). -/
theorem image_thumbnail_dimensions_witness :
    cacheLookup scenarioEnv.fs0 scenarioEnv.cacheDir scenarioEnv.hash
        "/media/p.jpg" = none ∧
    scenarioEnv.imgSize = some (4000, 3000) ∧ 0 < 4000 ∧ 0 < 3000 ∧
    scenarioEnv.imgDecode = some 7 ∧
    (∃ tw th : Nat,
      (runThumb scenarioEnv 9 "/media/p.jpg" "image").emits
          = [(9, QImageM.mk tw th 7)] ∧
      (tw, th) = qsizeScaled 4000 3000 100 100 ∧
      max tw th = 100 ∧
      tw * 3000 ≤ (th + 1) * 4000 ∧ th * 4000 ≤ (tw + 1) * 3000) :=
  ⟨rfl, rfl, by decide, by decide, rfl,
    image_thumbnail_dimensions scenarioEnv 9 "/media/p.jpg" 4000 3000 7
      rfl rfl (by decide) (by decide) rfl⟩

/-- A concrete run environment for the C9 witness: the cache directory is
absent and cannot be created. -/
def noDirEnv : RunEnv :=
  { scenarioEnv with dirExists0 := false, mkdir1Ok := false, mkdir2Ok := false }

/-- Witness for C9: with the cache directory impossible to create, the
4000x3000 image job still emits its generated thumbnail once and the file
system is unchanged. -/
theorem cache_dir_failure_nonfatal_witness :
    cacheLookup noDirEnv.fs0 noDirEnv.cacheDir noDirEnv.hash
        "/media/p.jpg" = none ∧
    noDirEnv.dirExists0 = false ∧ noDirEnv.mkdir1Ok = false ∧
    noDirEnv.mkdir2Ok = false ∧
    ((runThumb noDirEnv 2 "/media/p.jpg" "image").emits
        = [(2, generatedOf noDirEnv "image")] ∧
     (runThumb noDirEnv 2 "/media/p.jpg" "image").fs = noDirEnv.fs0) :=
  ⟨rfl, rfl, rfl, rfl,
    cache_dir_failure_nonfatal noDirEnv 2 "/media/p.jpg" "image"
      rfl rfl rfl rfl⟩

/-- The pre-reset media entry of the C4 scenario. -/
def mediaA : MediaFile := ⟨"/old/a.jpg", "a.jpg", "image"⟩

/-- The post-reset media entry of the C4 scenario. -/
def mediaB : MediaFile := ⟨"/new/b.jpg", "b.jpg", "image"⟩

/-- Counterexample to C4 as stated: render row 0 of the old data set
(dispatching a generation job for `/old/a.jpg`), reset to a fresh
one-element data set (`update_data` runs `cancel_pending_tasks` and
clears the decoration cache), then let the pre-reset job complete.  The
completion passes the `row < rowCount()` bounds check of
`on_thumbnail_loaded` — the only staleness guard the code has — and
stores the pre-reset image as the decoration of row 0 of the NEW data
set, even though that cache entry was empty right after the reset.  So a
pre-reset completion DOES update the decoration state of a row of the new
data set. -/
theorem stale_completion_counterexample :
    ((galleryRun (some (fun _ => true)) (initGallery [mediaA])
        [.render 0, .reset [mediaB]]).icon_cache 0 = none) ∧
    ((galleryRun (some (fun _ => true)) (initGallery [mediaA])
        [.render 0, .reset [mediaB], .loaded 0 (some 7)]).icon_cache 0
      = some (.fromImage 7)) ∧
    ((galleryRun (some (fun _ => true)) (initGallery [mediaA])
        [.render 0, .reset [mediaB], .loaded 0 (some 7)]).media_files
      = [mediaB]) :=
  ⟨rfl, rfl, rfl⟩

/-- **C4 (amended).** After `cancel_pending_tasks` and a data-set reset, a
pre-reset completion never crashes (every handler is total and both media
list accesses are bounds-guarded), and a completion whose row id lies
outside the new data set's bounds changes neither the decoration cache
nor the media list nor the request trace; but a stale completion whose
row id is reused by the new data set does update that row's decoration
(see the counterexample). -/
theorem stale_completion_out_of_range_ignored (vis : Option (Nat → Bool))
    (s : GalleryState) (row : Nat) (image : Option Nat)
    (h : s.media_files.length ≤ row) :
    (galleryStep vis s (.loaded row image)).icon_cache = s.icon_cache ∧
    (galleryStep vis s (.loaded row image)).media_files = s.media_files ∧
    (galleryStep vis s (.loaded row image)).requests = s.requests := by
  have hnlt : ¬ row < s.media_files.length := by omega
  cases image <;> simp [galleryStep, on_thumbnail_loaded, hnlt]

/-- Witness for the amended C4: after a reset to the empty data set, the
pre-reset completion for row 0 is out of range and leaves the decoration
cache, media list and request trace unchanged. -/
theorem stale_completion_out_of_range_witness :
    ((galleryRun (some (fun _ => true)) (initGallery [mediaA])
        [.render 0, .reset []]).media_files.length ≤ 0) ∧
    (((galleryStep (some (fun _ => true))
          (galleryRun (some (fun _ => true)) (initGallery [mediaA])
            [.render 0, .reset []]) (.loaded 0 (some 7))).icon_cache
        = (galleryRun (some (fun _ => true)) (initGallery [mediaA])
            [.render 0, .reset []]).icon_cache) ∧
     ((galleryStep (some (fun _ => true))
          (galleryRun (some (fun _ => true)) (initGallery [mediaA])
            [.render 0, .reset []]) (.loaded 0 (some 7))).media_files
        = (galleryRun (some (fun _ => true)) (initGallery [mediaA])
            [.render 0, .reset []]).media_files) ∧
     ((galleryStep (some (fun _ => true))
          (galleryRun (some (fun _ => true)) (initGallery [mediaA])
            [.render 0, .reset []]) (.loaded 0 (some 7))).requests
        = (galleryRun (some (fun _ => true)) (initGallery [mediaA])
            [.render 0, .reset []]).requests)) :=
  ⟨Nat.le_refl 0,
    stale_completion_out_of_range_ignored (some (fun _ => true))
      (galleryRun (some (fun _ => true)) (initGallery [mediaA])
        [.render 0, .reset []]) 0 (some 7) (Nat.le_refl 0)⟩

/-- Single-event bookkeeping for C10: any event other than a data-set
reset or a `task_canceled` for the row keeps the sum of the issued
request count for that row and its remaining request budget (1 while the
row has no decoration-cache entry, 0 once it has one) non-increasing:
only `on_task_canceled` and `update_data` can restore a row's budget. -/
theorem galleryStep_request_budget (vis : Option (Nat → Bool))
    (s : GalleryState) (row : Nat) (e : GalleryEvent)
    (hne : e ≠ .canceled row) (hnr : ∀ files, e ≠ .reset files) :
    (galleryStep vis s e).requests.count row
        + (if ((galleryStep vis s e).icon_cache row).isSome then 0 else 1)
      ≤ s.requests.count row
        + (if (s.icon_cache row).isSome then 0 else 1) := by
  cases e with
  | render r =>
    by_cases hrlt : r < s.media_files.length
    · cases hc : s.icon_cache r with
      | some ic => simp [galleryStep, galleryData, hrlt, hc]
      | none =>
        by_cases hr : r = row
        · subst hr
          simp [galleryStep, galleryData, hrlt, hc, List.count_append]
        · simp [galleryStep, galleryData, hrlt, hc, List.count_append,
            Ne.symm hr]
    · simp [galleryStep, galleryData, hrlt]
  | loaded r img =>
    by_cases hrlt : r < s.media_files.length
    · cases img with
      | some c =>
        by_cases hr : row = r
        · simp [galleryStep, on_thumbnail_loaded, hrlt, hr]
        · simp [galleryStep, on_thumbnail_loaded, hrlt, hr]
      | none =>
        by_cases hr : row = r
        · simp [galleryStep, on_thumbnail_loaded, hrlt, hr]
        · simp [galleryStep, on_thumbnail_loaded, hrlt, hr]
    · cases img with
      | some c => simp [galleryStep, on_thumbnail_loaded, hrlt]
      | none => simp [galleryStep, on_thumbnail_loaded, hrlt]
  | canceled r =>
    have hr : ¬ row = r := fun hh => hne (by rw [hh])
    simp [galleryStep, on_task_canceled, hr]
  | reset files => exact absurd rfl (hnr files)

/-- **C10.** Per row, the display model issues at most one outstanding
thumbnail request: `data` requests a load only when the row has no
decoration-cache entry and stores the loading marker synchronously before
requesting, and as long as no `task_canceled` for the row and no data-set
reset occurs, repeated renders of the row (pending or completed) never
issue a duplicate — the number of requests issued for the row over any
such event sequence is bounded by its initial budget (1 if the row has no
cache entry, 0 if it has one). -/
theorem row_requested_at_most_once (vis : Option (Nat → Bool))
    (s : GalleryState) (row : Nat) (evs : List GalleryEvent)
    (hnc : GalleryEvent.canceled row ∉ evs)
    (hnr : ∀ files, GalleryEvent.reset files ∉ evs) :
    (galleryRun vis s evs).requests.count row
      ≤ s.requests.count row
        + (if (s.icon_cache row).isSome then 0 else 1) := by
  revert hnc hnr
  induction evs generalizing s with
  | nil =>
    intro _ _
    simp [galleryRun]
  | cons e evs ih =>
    intro hnc hnr
    have hne : e ≠ .canceled row := fun hh =>
      hnc (by rw [hh]; exact List.mem_cons_self _ _)
    have hnr1 : ∀ files, e ≠ .reset files := fun files hh =>
      hnr files (by rw [hh]; exact List.mem_cons_self _ _)
    have hnc' : GalleryEvent.canceled row ∉ evs := fun hm =>
      hnc (List.mem_cons_of_mem _ hm)
    have hnr' : ∀ files, GalleryEvent.reset files ∉ evs := fun files hm =>
      hnr files (List.mem_cons_of_mem _ hm)
    rw [galleryRun]
    exact le_trans (ih (galleryStep vis s e) hnc' hnr')
      (galleryStep_request_budget vis s row e hne hnr1)

/-- The C10 witness event sequence: row 0 rendered repeatedly while its
request is pending and again after its completion. -/
def c10Events : List GalleryEvent :=
  [.render 0, .render 0, .loaded 0 (some 5), .render 0, .render 0]

/-- Witness for C10: over a trace with no cancellation and no reset, row 0
is requested at most once from the fresh model. -/
theorem row_requested_at_most_once_witness :
    GalleryEvent.canceled 0 ∉ c10Events ∧
    (∀ files, GalleryEvent.reset files ∉ c10Events) ∧
    (galleryRun (some (fun _ => true)) (initGallery [mediaA])
        c10Events).requests.count 0
      ≤ (initGallery [mediaA]).requests.count 0
        + (if ((initGallery [mediaA]).icon_cache 0).isSome then 0 else 1) :=
  ⟨by decide, by intro files; simp [c10Events],
    row_requested_at_most_once (some (fun _ => true)) (initGallery [mediaA]) 0
      c10Events (by decide) (by intro files; simp [c10Events])⟩

end Gallery
